import Mathlib

/-!
Shallow embedding of the request/response correlation core of the
trust-dns client library, covering:

* `src/proto/src/xfer/dns_handle.rs` — `StreamHandle`, `BasicDnsHandle`,
  the `DnsHandle` trait (default `is_verifying_dnssec` and `lookup`);
* `src/openssl/src/tls_server.rs` — `read_cert` and `new_acceptor`.

Rust channels (`futures::sync::mpsc` unbounded queues and
`futures::sync::oneshot` completion slots) are modelled by explicit state:
a queue is a liveness flag plus the list of enqueued items, and the fate of
a oneshot completion slot is an explicit datum (still unresolved, resolved
with a value, or producer dropped).  The future returned by `send` is
modelled by its poll function from the slot fate to an optional outcome.
External collaborators (the openssl library, the filesystem) are modelled
as oracle records supplied as parameters, so that every fallible call site
of the source is represented.
-/

namespace TrustDns

/-! ## Data model

Types from `src/proto/src/op` and `src/proto/src/xfer/dns_request.rs` are
not part of the provided sources; they are modelled from the spec's data
model section (§3), keeping exactly the fields the spec names. -/

/-- Modelled from the spec: a logical query is "a name + record-type
(+ class) the caller wants resolved" (§3, Logical Query). -/
structure Query where
  name : String
  query_type : Nat
  query_class : Nat
deriving DecidableEq, Repr

/-- Modelled from the spec: message type of an outbound message (§3);
`MessageType` in `src/proto/src/op`. -/
inductive MessageType where
  | Query
  | Response
deriving DecidableEq, Repr

/-- Modelled from the spec: operation code of an outbound message (§3);
`OpCode` in `src/proto/src/op`.  Only the standard-query code is used by
the provided sources; the rest are collapsed into `Other`. -/
inductive OpCode where
  | Query
  | Other (code : Nat)
deriving DecidableEq, Repr

/-- Modelled from the spec: the EDNS pseudo-record "carrying a
maximum-payload-size hint and protocol version" (§3); `Edns` in
`src/proto/src/op`.  `edns_mut` on a message without an EDNS record
installs this default before the setters run. -/
structure Edns where
  max_payload : Nat
  version : Nat
deriving DecidableEq, Repr

/-- Modelled from the spec: the default EDNS record created by `edns_mut`
when the message has none (protocol version 0, library default payload). -/
def Edns.new : Edns :=
  { max_payload := 512, version := 0 }

/-- Modelled from the spec: an outbound message envelope "containing: a
16-bit identifier, message type (query), operation code, recursion-desired
flag, one or more logical queries, and an optional EDNS pseudo-record"
(§3, Outbound Message); `Message` in `src/proto/src/op`. -/
structure Message where
  id : Nat
  message_type : MessageType
  op_code : OpCode
  recursion_desired : Bool
  queries : List Query
  edns : Option Edns
deriving DecidableEq, Repr

/-- Modelled from the spec: `Message::new()` — a fresh message with no
queries and no EDNS record. -/
def Message.new : Message :=
  { id := 0
    message_type := MessageType.Query
    op_code := OpCode.Query
    recursion_desired := false
    queries := []
    edns := none }

/-- Modelled from the spec: `Message::add_query` appends the logical query
to the message's query section. -/
def Message.add_query (m : Message) (q : Query) : Message :=
  { m with queries := m.queries ++ [q] }

/-- Modelled from the spec: `Message::edns_mut` returns the message's EDNS
record, installing `Edns.new` first when the message has none. -/
def Message.edns_or_default (m : Message) : Edns :=
  m.edns.getD Edns.new

/-- Modelled from the spec: a dispatch-options bag "carried alongside the
message but not part of it", e.g. whether to request DNSSEC-related
records (§3, Dispatch Options); `DnsRequestOptions` in
`src/proto/src/xfer`. -/
structure DnsRequestOptions where
  use_dnssec : Bool
deriving DecidableEq, Repr

/-- Modelled from the spec: `DnsRequest::new(message, options)` pairs an
outbound message with its dispatch options (§3, Request Envelope);
`DnsRequest` in `src/proto/src/xfer/dns_request.rs`. -/
structure DnsRequest where
  message : Message
  options : DnsRequestOptions
deriving DecidableEq, Repr

/-- Modelled from the spec: a response is "an inbound decoded message
matched to the Request Envelope that elicited it" (§3, Response);
`DnsResponse` in `src/proto/src/xfer`. -/
structure DnsResponse where
  message : Message
deriving DecidableEq, Repr

/-- Error kinds surfaced by the core (`ProtoErrorKind` in
`src/proto/src/error`, as used by `dns_handle.rs`): `Msg` carries a
human-readable wrapped error string; `Canceled` records that the oneshot
producer half was dropped without resolution (`oneshot::Canceled` is a
unit struct, so it carries no data beyond the kind). -/
inductive ProtoErrorKind where
  | Msg (text : String)
  | Canceled
deriving DecidableEq, Repr

/-! ## Unbounded mpsc channels

`futures::sync::mpsc::UnboundedSender::unbounded_send` never blocks: it
appends to the queue when the receiving half is still alive and fails with
a `SendError` otherwise.  A queue is modelled by its liveness flag (is the
receiver still alive?) and the list of items enqueued so far. -/

/-- Display text of `futures::sync::mpsc::SendError`, the underlying
enqueue failure reported when the receiving half of the channel has been
dropped (modelled from the futures 0.1 library). -/
def mpscSendErrorText : String := "send failed because receiver is gone"

/-- An unbounded mpsc queue: the receiver-alive flag and the items
enqueued so far, oldest first. -/
structure UnboundedQueue (α : Type) where
  alive : Bool
  items : List α
deriving DecidableEq, Repr

/-- `UnboundedSender::unbounded_send`: non-blocking append onto the queue;
fails exactly when the receiving half has been torn down, carrying the
send-error display text. -/
def UnboundedQueue.unbounded_send (q : UnboundedQueue α) (item : α) :
    Except String (UnboundedQueue α) :=
  if q.alive then Except.ok { q with items := q.items ++ [item] }
  else Except.error mpscSendErrorText

/-! ## StreamHandle (`dns_handle.rs` lines 26–66) -/

/-- `StreamHandle`: wraps the unbounded sender of raw byte buffers feeding
the transport driver. -/
structure StreamHandle where
  sender : UnboundedQueue (List Nat)
deriving DecidableEq, Repr

/-- `StreamHandle::new`. -/
def StreamHandle.new (sender : UnboundedQueue (List Nat)) : StreamHandle :=
  { sender := sender }

/-- `<StreamHandle as DnsStreamHandle>::send`: forwards `buffer` into the
unbounded delivery queue; a failed enqueue is mapped to a `Msg`-kind error
wrapping the mpsc send-error text.  Returns the updated queue next to the
result (state passing for the Rust `&mut self`). -/
def StreamHandle.send (h : StreamHandle) (buffer : List Nat) :
    StreamHandle × Except ProtoErrorKind Unit :=
  match h.sender.unbounded_send buffer with
  | Except.ok q => ({ sender := q }, Except.ok ())
  | Except.error e =>
      (h, Except.error (ProtoErrorKind.Msg ("mpsc::SendError " ++ e)))

/-! ## BasicDnsHandle (`dns_handle.rs` lines 72–120)

The outbound message queue carries `(DnsRequest, Complete)` pairs.  A
`Complete` (producer half of a oneshot slot) is identified by the slot
number allocated at `oneshot::channel()` time; the dispatcher state keeps
a fresh-slot counter so each `send` call gets a new slot. -/

/-- The outbound message queue shared with the transport driver: an
unbounded queue of request envelopes — `(request, completion-producer)`
pairs — plus the counter allocating fresh oneshot slot numbers. -/
structure MessageQueue where
  alive : Bool
  items : List (DnsRequest × Nat)
  next_slot : Nat
deriving DecidableEq, Repr

/-- `unbounded_send` on the message queue (same channel semantics as
`UnboundedQueue.unbounded_send`, specialized to request envelopes). -/
def MessageQueue.unbounded_send (q : MessageQueue) (item : DnsRequest × Nat) :
    Except String MessageQueue :=
  if q.alive then Except.ok { q with items := q.items ++ [item] }
  else Except.error mpscSendErrorText

/-- Decidable equality for `Except`, needed so slot fates and returned
results can be compared by evaluation in concrete examples. -/
instance {ε α : Type} [DecidableEq ε] [DecidableEq α] :
    DecidableEq (Except ε α)
  | Except.ok a, Except.ok b =>
      if h : a = b then Decidable.isTrue (congrArg Except.ok h)
      else Decidable.isFalse (fun he => h (Except.ok.inj he))
  | Except.ok _, Except.error _ =>
      Decidable.isFalse (fun he => Except.noConfusion he)
  | Except.error _, Except.ok _ =>
      Decidable.isFalse (fun he => Except.noConfusion he)
  | Except.error e, Except.error f =>
      if h : e = f then Decidable.isTrue (congrArg Except.error h)
      else Decidable.isFalse (fun he => h (Except.error.inj he))

/-- Fate of a oneshot completion slot, as eventually determined by the
holder of its producer half: still unresolved (producer alive, nothing
written yet), resolved once with a value via `Complete::send`, or the
producer half dropped without resolution. -/
inductive SlotFate where
  | unresolved
  | sent (value : Except ProtoErrorKind DnsResponse)
  | dropped
deriving DecidableEq, Repr

/-- The pending result handed back by `BasicDnsHandle::send`: either the
consumer half bound to the enqueued envelope's slot (awaiting the driver),
or — when the enqueue failed — a second slot already resolved with the
synthesized error value. -/
inductive Returned where
  | driverBound (slot : Nat)
  | preResolved (value : Except ProtoErrorKind DnsResponse)
deriving DecidableEq, Repr

/-- Result of one `BasicDnsHandle::send` call: the updated queue state and
the returned pending result. -/
structure SendResult where
  queue : MessageQueue
  returned : Returned
deriving DecidableEq, Repr

/-- `BasicDnsHandle`: clonable handle around the shared outbound message
queue. -/
structure BasicDnsHandle where
  message_sender : MessageQueue
deriving DecidableEq, Repr

/-- `BasicDnsHandle::new`. -/
def BasicDnsHandle.new (message_sender : MessageQueue) : BasicDnsHandle :=
  { message_sender := message_sender }

/-- `<BasicDnsHandle as DnsHandle>::send` (lines 92–119): allocate a fresh
oneshot slot, try to enqueue `(request, complete)`; on success return the
receiver bound to that slot; on failure allocate a second oneshot, resolve
it at once with a `Msg`-kind error carrying the enqueue failure text
(`ignore_send` discards the result of that resolution), and return the
second receiver instead. -/
def BasicDnsHandle.send (h : BasicDnsHandle) (request : DnsRequest) :
    SendResult :=
  let q := h.message_sender
  let slot := q.next_slot
  match q.unbounded_send (request, slot) with
  | Except.ok q1 =>
      { queue := { q1 with next_slot := q1.next_slot + 1 }
        returned := Returned.driverBound slot }
  | Except.error e =>
      { queue := { q with next_slot := q.next_slot + 2 }
        returned := Returned.preResolved (Except.error
          (ProtoErrorKind.Msg ("error sending to channel: " ++ e))) }

/-- Outcome of the combinator chain wrapped around a oneshot receiver in
`send` — `receiver.map_err(Canceled).map(into_future).flatten()` — as a
function of the slot's fate: no outcome while unresolved; a dropped
producer becomes a `Canceled`-kind error; a sent `Result` is flattened
into the future's own outcome. -/
def chainedOutcome (fate : SlotFate) :
    Option (Except ProtoErrorKind DnsResponse) :=
  match fate with
  | SlotFate.unresolved => none
  | SlotFate.sent value => some value
  | SlotFate.dropped => some (Except.error ProtoErrorKind.Canceled)

/-- Poll the pending result returned by `send`, given the fate the driver
assigns to the enqueued envelope's slot.  A pre-resolved receiver (the
enqueue-failure path) already holds a `sent` slot, so the driver's fate is
irrelevant to it. -/
def Returned.poll (r : Returned) (driver_fate : SlotFate) :
    Option (Except ProtoErrorKind DnsResponse) :=
  match r with
  | Returned.driverBound _ => chainedOutcome driver_fate
  | Returned.preResolved value => chainedOutcome (SlotFate.sent value)

/-- `DnsHandle::is_verifying_dnssec` default body (lines 127–132):
returns false. -/
def dnsHandleDefaultIsVerifyingDnssec : Bool := false

/-- `BasicDnsHandle` does not override the trait default, so its
`is_verifying_dnssec` is the default body. -/
def BasicDnsHandle.is_verifying_dnssec (_ : BasicDnsHandle) : Bool :=
  dnsHandleDefaultIsVerifyingDnssec

/-! ## DnsHandle::lookup (`dns_handle.rs` lines 153–183) -/

/-- `MAX_PAYLOAD_LEN` (line 23): 1500 (general MTU) − 40 (ipv6 header)
− 8 (udp header). -/
def MAX_PAYLOAD_LEN : Nat := 1500 - 40 - 8

/-- The message built by `DnsHandle::lookup` before delegation: fresh
message, query appended, the randomly drawn 16-bit identifier `id`
assigned, type = query, op code = standard query, recursion desired, and
the EDNS record's max payload and version set through `edns_mut`.  The
random draw `rand::random::<u16>()` is injected as the `id` argument. -/
def lookupMessage (id : Nat) (query : Query) : Message :=
  let message := Message.new
  let message := message.add_query query
  let message :=
    { message with
      id := id
      message_type := MessageType.Query
      op_code := OpCode.Query
      recursion_desired := true }
  let edns := message.edns_or_default
  let edns := { edns with max_payload := MAX_PAYLOAD_LEN }
  let edns := { edns with version := 0 }
  { message with edns := some edns }

/-- The request `DnsHandle::lookup` delegates to `send`:
`DnsRequest::new(message, options)` for the built message. -/
def lookupRequest (id : Nat) (query : Query) (options : DnsRequestOptions) :
    DnsRequest :=
  { message := lookupMessage id query, options := options }

/-- `lookup` on a `BasicDnsHandle`: builds the message and delegates it
with the supplied options to `BasicDnsHandle.send`. -/
def BasicDnsHandle.lookup (h : BasicDnsHandle) (id : Nat) (query : Query)
    (options : DnsRequestOptions) : SendResult :=
  h.send (lookupRequest id query options)

/-! ## Transport-security wrapper (`src/openssl/src/tls_server.rs`)

The openssl library and the filesystem are external collaborators; each
fallible call `read_cert` and `new_acceptor` make into them is represented
by an oracle field in an environment record, so that every failure path of
the source is a reachable branch of the embedding. -/

/-- An opaque private key held by a parsed pkcs12 bundle
(`openssl::pkey::PKey`). -/
structure PKey where
  key_id : Nat
deriving DecidableEq, Repr

/-- An opaque certificate (`openssl::x509::X509`). -/
structure X509 where
  cert_id : Nat
deriving DecidableEq, Repr

/-- `openssl::pkcs12::ParsedPkcs12`: private key, certificate and
optional certificate chain produced by `Pkcs12::parse`. -/
structure ParsedPkcs12 where
  pkey : PKey
  cert : X509
  chain : Option (List X509)
deriving DecidableEq, Repr

/-- An opaque unparsed pkcs12 bundle (`openssl::pkcs12::Pkcs12`, the
result of `Pkcs12::from_der`). -/
structure Pkcs12 where
  der_id : Nat
deriving DecidableEq, Repr

/-- Environment oracle for the filesystem and pkcs12-parsing calls made by
`read_cert`: `File::open` (keyed by path, yielding an opaque file handle
number), `Read::read_to_end` (yielding the file's bytes),
`Pkcs12::from_der`, and `Pkcs12::parse` with a password.  Each oracle's
error value is the display text of the underlying failure. -/
structure Pkcs12Env where
  file_open : String → Except String Nat
  read_to_end : Nat → Except String (List Nat)
  from_der : List Nat → Except String Pkcs12
  parse : Pkcs12 → String → Except String ParsedPkcs12

/-- Debug formatting of a `Path` (Rust's `{:?}` on a path renders it
quoted), as interpolated into every `read_cert` error message. -/
def pathDebug (path : String) : String := "\"" ++ path ++ "\""

/-- `read_cert` (`tls_server.rs` lines 20–35): open the file at `path`,
read it to the end, parse the bytes as a DER pkcs12 bundle, then decrypt
and parse it with the supplied password — with `""` standing in when no
password was supplied.  Every failure is mapped to a message naming the
path and the underlying cause. -/
def read_cert (env : Pkcs12Env) (path : String) (password : Option String) :
    Except String ParsedPkcs12 :=
  match env.file_open path with
  | Except.error e =>
      Except.error ("error opening pkcs12 cert file: " ++ pathDebug path
        ++ ": " ++ e)
  | Except.ok file =>
    match env.read_to_end file with
    | Except.error e =>
        Except.error ("could not read pkcs12 key from: " ++ pathDebug path
          ++ ": " ++ e)
    | Except.ok key_bytes =>
      match env.from_der key_bytes with
      | Except.error e =>
          Except.error ("badly formated pkcs12 key from: " ++ pathDebug path
            ++ ": " ++ e)
      | Except.ok pkcs12 =>
        match env.parse pkcs12 (password.getD "") with
        | Except.error e =>
            Except.error ("failed to open pkcs12 from: " ++ pathDebug path
              ++ ": " ++ e)
        | Except.ok parsed => Except.ok parsed

/-- The legacy-protocol disable flags of `openssl::ssl::SslOptions`
relevant to `new_acceptor` (the remaining bits of the bitflags set are
not inspected by the source and are left out of the model). -/
structure SslOptions where
  no_sslv2 : Bool
  no_sslv3 : Bool
  no_tlsv1 : Bool
  no_tlsv1_1 : Bool
deriving DecidableEq, Repr

/-- Bitwise union of two option sets, the effect of
`SslContextBuilder::set_options` (openssl ORs the given options into the
options already set and never clears any). -/
def SslOptions.union (a b : SslOptions) : SslOptions :=
  { no_sslv2 := a.no_sslv2 || b.no_sslv2
    no_sslv3 := a.no_sslv3 || b.no_sslv3
    no_tlsv1 := a.no_tlsv1 || b.no_tlsv1
    no_tlsv1_1 := a.no_tlsv1_1 || b.no_tlsv1_1 }

/-- The option set passed to `set_options` in `new_acceptor`:
`NO_SSLV2 | NO_SSLV3 | NO_TLSV1 | NO_TLSV1_1`. -/
def legacyDisableOptions : SslOptions :=
  { no_sslv2 := true, no_sslv3 := true, no_tlsv1 := true,
    no_tlsv1_1 := true }

/-- `openssl::ssl::SslAcceptorBuilder`: the negotiation options plus the
key, certificate and extra chain certificates installed so far. -/
structure SslAcceptorBuilder where
  options : SslOptions
  private_key : Option PKey
  certificate : Option X509
  extra_chain_certs : List X509
deriving DecidableEq, Repr

/-- `openssl::ssl::SslAcceptor`: the built acceptor, carrying the
builder's final configuration. -/
structure SslAcceptor where
  options : SslOptions
  private_key : Option PKey
  certificate : Option X509
  extra_chain_certs : List X509
deriving DecidableEq, Repr

/-- `SslAcceptorBuilder::build`. -/
def SslAcceptorBuilder.build (b : SslAcceptorBuilder) : SslAcceptor :=
  { options := b.options
    private_key := b.private_key
    certificate := b.certificate
    extra_chain_certs := b.extra_chain_certs }

/-- Environment oracle for the fallible openssl calls made by
`new_acceptor`: `SslAcceptor::mozilla_modern` (which yields the builder in
its initial configuration, options included), and the success/failure of
`set_private_key`, `set_certificate` and `add_extra_chain_cert` on the
given arguments.  Error values are the display texts turned into
`io::Error` by the `?` conversions. -/
structure SslEnv where
  mozilla_modern : Except String SslAcceptorBuilder
  set_private_key_ok : PKey → Option String
  set_certificate_ok : X509 → Option String
  add_extra_chain_cert_ok : X509 → Option String

/-- Install the extra chain certificates one by one
(`for cert in chain { builder.add_extra_chain_cert(cert.to_owned())?; }`),
stopping at the first failing call. -/
def addChainCerts (env : SslEnv) (builder : SslAcceptorBuilder) :
    List X509 → Except String SslAcceptorBuilder
  | [] => Except.ok builder
  | cert :: rest =>
    match env.add_extra_chain_cert_ok cert with
    | some e => Except.error e
    | none =>
        addChainCerts env
          { builder with
            extra_chain_certs := builder.extra_chain_certs ++ [cert] } rest

/-- The `if let Some(ref chain) = pkcs12.chain` block of `new_acceptor`:
install the chain's certificates when a chain is present, otherwise leave
the builder unchanged. -/
def installChain (env : SslEnv) (builder : SslAcceptorBuilder) :
    Option (List X509) → Except String SslAcceptorBuilder
  | some chain => addChainCerts env builder chain
  | none => Except.ok builder

/-- `new_acceptor` (`tls_server.rs` lines 38–64): start from the
`mozilla_modern` builder, install the bundle's private key and
certificate, install each extra chain certificate when a chain is present,
then OR the four legacy-protocol disable options into the builder's
options and build the acceptor. -/
def new_acceptor (env : SslEnv) (pkcs12 : ParsedPkcs12) :
    Except String SslAcceptor :=
  match env.mozilla_modern with
  | Except.error e => Except.error e
  | Except.ok builder =>
    match env.set_private_key_ok pkcs12.pkey with
    | some e => Except.error e
    | none =>
      match env.set_certificate_ok pkcs12.cert with
      | some e => Except.error e
      | none =>
        match installChain env
            { builder with
              private_key := some pkcs12.pkey
              certificate := some pkcs12.cert } pkcs12.chain with
        | Except.error e => Except.error e
        | Except.ok builder =>
          Except.ok (SslAcceptorBuilder.build
            { builder with
              options := builder.options.union legacyDisableOptions })

/-! ## Concrete fixtures used by the witness theorems -/

/-- A concrete logical query. -/
def sampleQuery : Query :=
  { name := "example.com.", query_type := 1, query_class := 1 }

/-- Concrete dispatch options. -/
def sampleOptions : DnsRequestOptions := { use_dnssec := false }

/-- A concrete request (the one `lookup` would build for `sampleQuery`
with identifier 7). -/
def sampleRequest : DnsRequest := lookupRequest 7 sampleQuery sampleOptions

/-- A concrete response. -/
def sampleResponse : DnsResponse := { message := Message.new }

/-- An outbound message queue whose consumer (the driver) is alive. -/
def aliveQueue : MessageQueue :=
  { alive := true, items := [], next_slot := 0 }

/-- An outbound message queue whose consumer has been torn down. -/
def deadQueue : MessageQueue :=
  { alive := false, items := [], next_slot := 0 }

/-- An openssl environment in which every builder call succeeds,
starting from a builder with none of the legacy disable options set. -/
def sslEnvOk : SslEnv :=
  { mozilla_modern := Except.ok
      { options :=
          { no_sslv2 := false, no_sslv3 := false, no_tlsv1 := false,
            no_tlsv1_1 := false }
        private_key := none
        certificate := none
        extra_chain_certs := [] }
    set_private_key_ok := fun _ => none
    set_certificate_ok := fun _ => none
    add_extra_chain_cert_ok := fun _ => none }

/-- A concrete parsed credential bundle with a one-certificate chain. -/
def samplePkcs12 : ParsedPkcs12 :=
  { pkey := { key_id := 1 }, cert := { cert_id := 2 },
    chain := some [{ cert_id := 3 }] }

/-- The acceptor `new_acceptor` builds from `sslEnvOk` and
`samplePkcs12`. -/
def sampleAcceptor : SslAcceptor :=
  { options :=
      { no_sslv2 := true, no_sslv3 := true, no_tlsv1 := true,
        no_tlsv1_1 := true }
    private_key := some { key_id := 1 }
    certificate := some { cert_id := 2 }
    extra_chain_certs := [{ cert_id := 3 }] }

/-- A filesystem/pkcs12 environment in which the file opens and reads
fine and the DER parses, but decryption fails (wrong password). -/
def pkcs12EnvWrongPassword : Pkcs12Env :=
  { file_open := fun _ => Except.ok 0
    read_to_end := fun _ => Except.ok [48, 130]
    from_der := fun _ => Except.ok { der_id := 0 }
    parse := fun _ _ => Except.error "mac verify failure" }

/-- A concrete credential-bundle path. -/
def samplePath : String := "/certs/server.p12"

/-- The error message `read_cert` produces for `samplePath` under
`pkcs12EnvWrongPassword`. -/
def wrongPasswordMessage : String :=
  "failed to open pkcs12 from: " ++ pathDebug samplePath ++ ": "
    ++ "mac verify failure"

/-! ## Claim theorems -/

/-- C1: for every request sent through `BasicDnsHandle::send` while the
outbound queue is alive, the returned pending result completes with
exactly one outcome — never zero and never more than one — whether the
driver resolves the completion slot (with a response or a typed error) or
drops its producer half. -/
theorem basic_send_exactly_one_outcome (h : BasicDnsHandle)
    (request : DnsRequest) (fate : SlotFate)
    (halive : h.message_sender.alive = true)
    (hfate : fate ≠ SlotFate.unresolved) :
    ∃! outcome, (h.send request).returned.poll fate = some outcome := by
  cases fate with
  | unresolved => exact absurd rfl hfate
  | sent value =>
      refine ⟨value, ?_, ?_⟩
      · simp [BasicDnsHandle.send, MessageQueue.unbounded_send, halive,
          Returned.poll, chainedOutcome]
      · intro y hy
        simp [BasicDnsHandle.send, MessageQueue.unbounded_send, halive,
          Returned.poll, chainedOutcome] at hy
        exact hy.symm
  | dropped =>
      refine ⟨Except.error ProtoErrorKind.Canceled, ?_, ?_⟩
      · simp [BasicDnsHandle.send, MessageQueue.unbounded_send, halive,
          Returned.poll, chainedOutcome]
      · intro y hy
        simp [BasicDnsHandle.send, MessageQueue.unbounded_send, halive,
          Returned.poll, chainedOutcome] at hy
        exact hy.symm

/-- C1 witness: on a concrete alive queue and request, with the driver
resolving the slot with a concrete response, the returned result has
exactly one outcome. -/
theorem basic_send_exactly_one_outcome_witness :
    (BasicDnsHandle.new aliveQueue).message_sender.alive = true ∧
    SlotFate.sent (Except.ok sampleResponse) ≠ SlotFate.unresolved ∧
    ∃! outcome,
      ((BasicDnsHandle.new aliveQueue).send sampleRequest).returned.poll
        (SlotFate.sent (Except.ok sampleResponse)) = some outcome :=
  ⟨rfl, by simp,
    basic_send_exactly_one_outcome (BasicDnsHandle.new aliveQueue)
      sampleRequest (SlotFate.sent (Except.ok sampleResponse)) rfl
      (by simp)⟩

/-- C2: if the outbound queue's consumer has been torn down before `send`
is called, `send` still returns a pending result — the synthesized,
already-resolved second slot — and that result resolves, with no driver
action at all (any slot fate, including still-unresolved), to a `Msg`-kind
channel-send-failure error whose text includes the underlying enqueue
failure text. -/
theorem basic_send_dead_queue_resolves_immediately (h : BasicDnsHandle)
    (request : DnsRequest) (fate : SlotFate)
    (hdead : h.message_sender.alive = false) :
    (h.send request).returned = Returned.preResolved (Except.error
      (ProtoErrorKind.Msg ("error sending to channel: " ++
        mpscSendErrorText))) ∧
    (h.send request).returned.poll fate = some (Except.error
      (ProtoErrorKind.Msg ("error sending to channel: " ++
        mpscSendErrorText))) := by
  constructor
  · simp [BasicDnsHandle.send, MessageQueue.unbounded_send, hdead]
  · simp [BasicDnsHandle.send, MessageQueue.unbounded_send, hdead,
      Returned.poll, chainedOutcome]

/-- C2 witness: on a concrete dead queue, the returned result is already
resolved with the channel-send-failure error even when the driver never
acts (fate still unresolved). -/
theorem basic_send_dead_queue_resolves_immediately_witness :
    (BasicDnsHandle.new deadQueue).message_sender.alive = false ∧
    (((BasicDnsHandle.new deadQueue).send sampleRequest).returned =
        Returned.preResolved (Except.error (ProtoErrorKind.Msg
          ("error sending to channel: " ++ mpscSendErrorText))) ∧
      ((BasicDnsHandle.new deadQueue).send sampleRequest).returned.poll
          SlotFate.unresolved = some (Except.error (ProtoErrorKind.Msg
          ("error sending to channel: " ++ mpscSendErrorText)))) :=
  ⟨rfl,
    basic_send_dead_queue_resolves_immediately (BasicDnsHandle.new deadQueue)
      sampleRequest SlotFate.unresolved rfl⟩

/-- C3: for every request enqueued by `BasicDnsHandle::send`, if the
completion slot's producer half is dropped without an outcome being
written, the caller's returned handle resolves with a `Canceled`-kind
error rather than remaining unresolved. -/
theorem basic_send_dropped_producer_canceled (h : BasicDnsHandle)
    (request : DnsRequest) (halive : h.message_sender.alive = true) :
    (h.send request).returned.poll SlotFate.dropped =
      some (Except.error ProtoErrorKind.Canceled) := by
  simp [BasicDnsHandle.send, MessageQueue.unbounded_send, halive,
    Returned.poll, chainedOutcome]

/-- C3 witness: on a concrete alive queue, dropping the producer half
resolves the returned handle with the `Canceled`-kind error. -/
theorem basic_send_dropped_producer_canceled_witness :
    (BasicDnsHandle.new aliveQueue).message_sender.alive = true ∧
    ((BasicDnsHandle.new aliveQueue).send sampleRequest).returned.poll
        SlotFate.dropped = some (Except.error ProtoErrorKind.Canceled) :=
  ⟨rfl,
    basic_send_dropped_producer_canceled (BasicDnsHandle.new aliveQueue)
      sampleRequest rfl⟩

/-- C5: `StreamHandle::send` succeeds (and merely appends to the
unbounded queue, never blocking) exactly when the delivery queue's
receiving end is still alive, and its only failure mode — when the
receiving end has been torn down — is the `Msg`-kind stream error
wrapping the mpsc send-error text. -/
theorem stream_send_ok_iff_receiver_alive (h : StreamHandle)
    (buffer : List Nat) :
    ((h.send buffer).2 = Except.ok () ↔ h.sender.alive = true) ∧
    (h.sender.alive = false →
      (h.send buffer).2 = Except.error (ProtoErrorKind.Msg
        ("mpsc::SendError " ++ mpscSendErrorText))) := by
  obtain ⟨⟨alive, items⟩⟩ := h
  cases alive <;>
    simp [StreamHandle.send, UnboundedQueue.unbounded_send]

/-- C5 witness: on a concrete torn-down queue, the send fails with the
stream error; on a concrete alive queue, it succeeds. -/
theorem stream_send_ok_iff_receiver_alive_witness :
    (StreamHandle.new { alive := false, items := [] }).sender.alive
        = false ∧
    ((StreamHandle.new { alive := false, items := [] }).send [0]).2 =
      Except.error (ProtoErrorKind.Msg
        ("mpsc::SendError " ++ mpscSendErrorText)) ∧
    ((StreamHandle.new { alive := true, items := [] }).send [0]).2 =
      Except.ok () :=
  ⟨rfl,
    (stream_send_ok_iff_receiver_alive
      (StreamHandle.new { alive := false, items := [] }) [0]).2 rfl,
    (stream_send_ok_iff_receiver_alive
      (StreamHandle.new { alive := true, items := [] }) [0]).1.mpr rfl⟩

/-- C6: `is_verifying_dnssec()` on a `BasicDnsHandle` returns false for
every handle value, and the trait default it inherits (used by any
implementation that does not override it) is false. -/
theorem basic_handle_not_verifying_dnssec :
    dnsHandleDefaultIsVerifyingDnssec = false ∧
    ∀ h : BasicDnsHandle, h.is_verifying_dnssec = false :=
  ⟨rfl, fun _ => rfl⟩

/-- C10: `BasicDnsHandle::send` enqueues the request exactly as supplied:
when the queue is alive, the pair appended to the outbound queue carries
the converted request unmodified (message, identifier and options
included), next to the freshly allocated completion producer, and the
previously enqueued items are untouched. -/
theorem basic_send_enqueues_request_unmodified (h : BasicDnsHandle)
    (request : DnsRequest) (halive : h.message_sender.alive = true) :
    (h.send request).queue.items =
      h.message_sender.items ++ [(request, h.message_sender.next_slot)] := by
  simp [BasicDnsHandle.send, MessageQueue.unbounded_send, halive]

/-- C10 witness: on a concrete alive queue, the enqueued pair is exactly
the supplied request with the fresh slot number. -/
theorem basic_send_enqueues_request_unmodified_witness :
    (BasicDnsHandle.new aliveQueue).message_sender.alive = true ∧
    ((BasicDnsHandle.new aliveQueue).send sampleRequest).queue.items =
      aliveQueue.items ++ [(sampleRequest, aliveQueue.next_slot)] :=
  ⟨rfl,
    basic_send_enqueues_request_unmodified (BasicDnsHandle.new aliveQueue)
      sampleRequest rfl⟩

/-- C4: for every logical query, options and 16-bit random draw,
`lookup` builds a fresh message containing exactly the query, carrying
the drawn identifier (any value of the full 16-bit space is attainable),
message type = query, operation code = standard query, recursion desired,
and an EDNS record with max payload exactly 1452 = 1500 − 40 − 8 and
protocol version 0 — and delegates that message with the supplied options
to `send`. -/
theorem lookup_builds_edns_query (h : BasicDnsHandle) (id : Nat)
    (query : Query) (options : DnsRequestOptions) (hid : id < 2 ^ 16) :
    (lookupRequest id query options).message.queries = [query] ∧
    (lookupRequest id query options).message.id = id ∧
    (lookupRequest id query options).message.id < 2 ^ 16 ∧
    (lookupRequest id query options).message.message_type
      = MessageType.Query ∧
    (lookupRequest id query options).message.op_code = OpCode.Query ∧
    (lookupRequest id query options).message.recursion_desired = true ∧
    (lookupRequest id query options).message.edns
      = some { max_payload := 1452, version := 0 } ∧
    MAX_PAYLOAD_LEN = 1500 - 40 - 8 ∧
    MAX_PAYLOAD_LEN = 1452 ∧
    (lookupRequest id query options).options = options ∧
    h.lookup id query options = h.send (lookupRequest id query options) ∧
    (∀ target, target < 2 ^ 16 →
      ∃ draw, draw < 2 ^ 16 ∧ (lookupMessage draw query).id = target) :=
  ⟨rfl, rfl, hid, rfl, rfl, rfl, rfl, rfl, rfl, rfl, rfl,
    fun target ht => ⟨target, ht, rfl⟩⟩

/-- C4 witness: the concrete draw 7 is a 16-bit value, and `lookup`
built from it has all the stated fields. -/
theorem lookup_builds_edns_query_witness :
    (7 : Nat) < 2 ^ 16 ∧
    ((lookupRequest 7 sampleQuery sampleOptions).message.queries
        = [sampleQuery] ∧
      (lookupRequest 7 sampleQuery sampleOptions).message.id = 7 ∧
      (lookupRequest 7 sampleQuery sampleOptions).message.id < 2 ^ 16 ∧
      (lookupRequest 7 sampleQuery sampleOptions).message.message_type
        = MessageType.Query ∧
      (lookupRequest 7 sampleQuery sampleOptions).message.op_code
        = OpCode.Query ∧
      (lookupRequest 7 sampleQuery sampleOptions).message.recursion_desired
        = true ∧
      (lookupRequest 7 sampleQuery sampleOptions).message.edns
        = some { max_payload := 1452, version := 0 } ∧
      MAX_PAYLOAD_LEN = 1500 - 40 - 8 ∧
      MAX_PAYLOAD_LEN = 1452 ∧
      (lookupRequest 7 sampleQuery sampleOptions).options = sampleOptions ∧
      (BasicDnsHandle.new aliveQueue).lookup 7 sampleQuery sampleOptions
        = (BasicDnsHandle.new aliveQueue).send
            (lookupRequest 7 sampleQuery sampleOptions) ∧
      (∀ target, target < 2 ^ 16 →
        ∃ draw, draw < 2 ^ 16 ∧
          (lookupMessage draw sampleQuery).id = target)) :=
  ⟨by decide,
    lookup_builds_edns_query (BasicDnsHandle.new aliveQueue) 7 sampleQuery
      sampleOptions (by decide)⟩

/-- C7: whenever `new_acceptor` succeeds on a parsed credential bundle,
the built acceptor's negotiation options have all four legacy-protocol
disable flags set: SSLv2, SSLv3, TLS 1.0 and TLS 1.1 are excluded. -/
theorem new_acceptor_disables_legacy_protocols (env : SslEnv)
    (pkcs12 : ParsedPkcs12) (acceptor : SslAcceptor)
    (hok : new_acceptor env pkcs12 = Except.ok acceptor) :
    acceptor.options.no_sslv2 = true ∧
    acceptor.options.no_sslv3 = true ∧
    acceptor.options.no_tlsv1 = true ∧
    acceptor.options.no_tlsv1_1 = true := by
  unfold new_acceptor at hok
  split at hok
  · exact Except.noConfusion hok
  · split at hok
    · exact Except.noConfusion hok
    · split at hok
      · exact Except.noConfusion hok
      · split at hok
        · exact Except.noConfusion hok
        · obtain rfl := Except.ok.inj hok
          simp [SslAcceptorBuilder.build, SslOptions.union,
            legacyDisableOptions]

/-- C7 witness: on a concrete environment whose builder calls all succeed
(starting with no disable flag set) and a concrete bundle with a chain,
`new_acceptor` succeeds and the acceptor excludes all four legacy
protocols. -/
theorem new_acceptor_disables_legacy_protocols_witness :
    new_acceptor sslEnvOk samplePkcs12 = Except.ok sampleAcceptor ∧
    (sampleAcceptor.options.no_sslv2 = true ∧
      sampleAcceptor.options.no_sslv3 = true ∧
      sampleAcceptor.options.no_tlsv1 = true ∧
      sampleAcceptor.options.no_tlsv1_1 = true) :=
  ⟨rfl,
    new_acceptor_disables_legacy_protocols sslEnvOk samplePkcs12
      sampleAcceptor rfl⟩

/-- C8: whenever `read_cert` fails — at file open, file read, DER parse,
or decryption/parse with the password — the error message names the path
(quoted, between a stage prefix and the cause), and it is exactly the
message of the first failing stage with that stage's underlying cause
appended; no parsed credential is produced (the result is an error). -/
theorem read_cert_error_names_path_and_cause (env : Pkcs12Env)
    (path : String) (password : Option String) (m : String)
    (herr : read_cert env path password = Except.error m) :
    (∃ stage cause, m = stage ++ pathDebug path ++ ": " ++ cause) ∧
    ((∃ e, env.file_open path = Except.error e ∧
        m = "error opening pkcs12 cert file: " ++ pathDebug path
          ++ ": " ++ e) ∨
      (∃ file e, env.file_open path = Except.ok file ∧
        env.read_to_end file = Except.error e ∧
        m = "could not read pkcs12 key from: " ++ pathDebug path
          ++ ": " ++ e) ∨
      (∃ file bytes e, env.file_open path = Except.ok file ∧
        env.read_to_end file = Except.ok bytes ∧
        env.from_der bytes = Except.error e ∧
        m = "badly formated pkcs12 key from: " ++ pathDebug path
          ++ ": " ++ e) ∨
      (∃ file bytes p12 e, env.file_open path = Except.ok file ∧
        env.read_to_end file = Except.ok bytes ∧
        env.from_der bytes = Except.ok p12 ∧
        env.parse p12 (password.getD "") = Except.error e ∧
        m = "failed to open pkcs12 from: " ++ pathDebug path
          ++ ": " ++ e)) := by
  unfold read_cert at herr
  split at herr
  next e h1 =>
    obtain rfl := Except.error.inj herr
    exact ⟨⟨_, _, rfl⟩, Or.inl ⟨e, h1, rfl⟩⟩
  next file h1 =>
    split at herr
    next e h2 =>
      obtain rfl := Except.error.inj herr
      exact ⟨⟨_, _, rfl⟩, Or.inr (Or.inl ⟨file, e, h1, h2, rfl⟩)⟩
    next bytes h2 =>
      split at herr
      next e h3 =>
        obtain rfl := Except.error.inj herr
        exact ⟨⟨_, _, rfl⟩,
          Or.inr (Or.inr (Or.inl ⟨file, bytes, e, h1, h2, h3, rfl⟩))⟩
      next p12 h3 =>
        split at herr
        next e h4 =>
          obtain rfl := Except.error.inj herr
          exact ⟨⟨_, _, rfl⟩,
            Or.inr (Or.inr (Or.inr ⟨file, bytes, p12, e, h1, h2, h3, h4,
              rfl⟩))⟩
        next parsed h4 => exact Except.noConfusion herr

/-- C8 witness: with a concrete environment in which decryption fails
(wrong password), `read_cert` on a concrete path fails with the
parse/decrypt message, which names the path and carries the cause. -/
theorem read_cert_error_names_path_and_cause_witness :
    read_cert pkcs12EnvWrongPassword samplePath (some "wrong")
        = Except.error wrongPasswordMessage ∧
    ((∃ stage cause,
        wrongPasswordMessage = stage ++ pathDebug samplePath
          ++ ": " ++ cause) ∧
      ((∃ e, pkcs12EnvWrongPassword.file_open samplePath = Except.error e ∧
          wrongPasswordMessage = "error opening pkcs12 cert file: "
            ++ pathDebug samplePath ++ ": " ++ e) ∨
        (∃ file e,
          pkcs12EnvWrongPassword.file_open samplePath = Except.ok file ∧
          pkcs12EnvWrongPassword.read_to_end file = Except.error e ∧
          wrongPasswordMessage = "could not read pkcs12 key from: "
            ++ pathDebug samplePath ++ ": " ++ e) ∨
        (∃ file bytes e,
          pkcs12EnvWrongPassword.file_open samplePath = Except.ok file ∧
          pkcs12EnvWrongPassword.read_to_end file = Except.ok bytes ∧
          pkcs12EnvWrongPassword.from_der bytes = Except.error e ∧
          wrongPasswordMessage = "badly formated pkcs12 key from: "
            ++ pathDebug samplePath ++ ": " ++ e) ∨
        (∃ file bytes p12 e,
          pkcs12EnvWrongPassword.file_open samplePath = Except.ok file ∧
          pkcs12EnvWrongPassword.read_to_end file = Except.ok bytes ∧
          pkcs12EnvWrongPassword.from_der bytes = Except.ok p12 ∧
          pkcs12EnvWrongPassword.parse p12 ((some "wrong").getD "")
            = Except.error e ∧
          wrongPasswordMessage = "failed to open pkcs12 from: "
            ++ pathDebug samplePath ++ ": " ++ e))) :=
  ⟨rfl,
    read_cert_error_names_path_and_cause pkcs12EnvWrongPassword samplePath
      (some "wrong") wrongPasswordMessage rfl⟩

/-- C9: for every environment and path, `read_cert` with no password
behaves identically to `read_cert` with the empty-string password: the
absent password is replaced by `""` before decryption rather than failing
or skipping the parse. -/
theorem read_cert_none_password_eq_empty (env : Pkcs12Env)
    (path : String) :
    read_cert env path none = read_cert env path (some "") := rfl

end TrustDns
